import Mathlib

/-!
Verification development for the `python-project-setup` repository.

The repository has two independent subsystems:

* a reader/writer factory pair (`src/backend/src/data/reader`, `src/backend/src/data/writer`)
  that dispatches a format-name string to a handler class and delegates the call, and
* a configuration loader (`src/config/name_space.py`) merging a YAML file, a dotenv
  secrets file and a multi-sheet Excel schema into a nested namespace object.

The shallow embedding below mirrors the Python source line by line.  External
effects (the filesystem, `pd.read_csv`, `pd.read_excel`, `safe_load`, `dotenv_values`)
are abstracted into explicit "world" records of functions, exceptions become an
explicit error type carried in `Except`, and every filesystem-touching or
instantiating step of the reader/writer subsystem is additionally logged into an
event trace so that "no file was opened" and "no handler was instantiated" are
provable statements.
-/

set_option autoImplicit false

/-- Python exceptions that the embedded code can raise. -/
inductive PyError where
  | keyError (k : String)
  | nameError (n : String)
  | ioError (msg : String)
  | parseError (msg : String)
  | typeError (msg : String)
  deriving DecidableEq, Repr

/-- The shared configuration object handed to factories and handlers.  The code
under `src/backend` treats it as fully opaque (it is stored and passed on, never
inspected), so an opaque string stands in for it. -/
abbrev Cfg := String

/-- Keyword options (`**kwargs`) forwarded by the factories to the handlers.
The reader code never inspects them, so an association list of strings suffices. -/
abbrev Options := List (String × String)

/-- An in-memory table (`pandas.DataFrame` as produced by `pd.read_csv` or
`pd.read_excel`): opaque to this layer, produced and consumed wholesale. -/
structure Table where
  cells : List (List String)
  deriving DecidableEq, Repr

/-- Observable events of the reader/writer subsystem: instantiating a handler
class (with the configuration object passed to its constructor) and attempting
to open a file through the pandas read functions. -/
inductive Event where
  | instCSV (cfg : Cfg)
  | instExcel (cfg : Cfg)
  | csvOpen (path : String) (opts : Options)
  | excelOpen (path : String) (opts : Options)
  deriving DecidableEq, Repr

/-- The external world of the reader subsystem: what `pd.read_csv` and
`pd.read_excel` would yield at a given path with given options.  A `.ok` value
is a readable, well-formed file; an `.error` is the I/O or parse exception the
pandas call would raise. -/
structure World where
  csv : String → Options → Except PyError Table
  excel : String → Options → Except PyError Table

/-- Python `str.lower` (the source only ever feeds it ASCII format names). -/
def pyLower (s : String) : String :=
  String.mk (s.toList.map Char.toLower)

/-- Embeds `CSVReader` from `src/backend/src/data/reader/csv.py`: the instance
holds the configuration object passed to the `IReader` constructor. -/
structure CSVReader where
  cfg : Cfg
  deriving DecidableEq, Repr

/-- Embeds `CSVReader.read`: it evaluates `df = pd.read_csv(path, **kwargs)` and
then falls off the end of the function body, so on success it returns Python
`None` (`Option.none`), never the loaded table.  The attempted file access is
logged either way. -/
def CSVReader.read (_r : CSVReader) (w : World) (path : String) (kwargs : Options) :
    Except PyError (Option Table) × List Event :=
  match w.csv path kwargs with
  | .ok _df => (.ok none, [Event.csvOpen path kwargs])
  | .error e => (.error e, [Event.csvOpen path kwargs])

/-- Embeds `ExcelReader` from `src/backend/src/data/reader/excel.py`. -/
structure ExcelReader where
  cfg : Cfg
  deriving DecidableEq, Repr

/-- Embeds `ExcelReader.read`: `df = pd.read_excel(path, **kwargs)` with no
return statement, hence `None` on success. -/
def ExcelReader.read (_r : ExcelReader) (w : World) (path : String) (kwargs : Options) :
    Except PyError (Option Table) × List Event :=
  match w.excel path kwargs with
  | .ok _df => (.ok none, [Event.excelOpen path kwargs])
  | .error e => (.error e, [Event.excelOpen path kwargs])

/-- The two handler classes stored as values of the dispatch dictionary in
`DataReaderFactory.read`. -/
inductive ReaderClass where
  | csvClass
  | excelClass
  deriving DecidableEq, Repr

/-- The dictionary literal of `DataReaderFactory.read`, line 10 of
`src/backend/src/data/reader/factory.py`. -/
def readerDict : List (String × ReaderClass) :=
  [("csv", ReaderClass.csvClass), ("excel", ReaderClass.excelClass)]

/-- Embeds `DataReaderFactory` from `src/backend/src/data/reader/factory.py`. -/
structure DataReaderFactory where
  cfg : Cfg
  deriving DecidableEq, Repr

/-- Embeds `DataReaderFactory.read`, line 14 of the source:
`reader_dict[source.lower()](cfg = self.cfg).read(path, **kwargs)`.
A missing dictionary key raises `KeyError(source.lower())` before anything else
happens (empty event trace); a hit instantiates the matched class with the
factory's configuration (logged) and delegates to its `read`. -/
def DataReaderFactory.read (f : DataReaderFactory) (w : World) (source path : String)
    (kwargs : Options) : Except PyError (Option Table) × List Event :=
  match (readerDict.find? (fun p => p.1 = pyLower source)) with
  | some p =>
    match p.2 with
    | .csvClass =>
      let res := (CSVReader.mk f.cfg).read w path kwargs
      (res.1, Event.instCSV f.cfg :: res.2)
    | .excelClass =>
      let res := (ExcelReader.mk f.cfg).read w path kwargs
      (res.1, Event.instExcel f.cfg :: res.2)
  | none => (.error (.keyError (pyLower source)), [])

/-- Writer handler classes: `src/backend/src/data/writer/factory.py` registers
none, so this type has no constructors. -/
inductive WriterClass where
  deriving DecidableEq

/-- The dictionary literal of `DataWriterFactory.write`, lines 9 to 11 of
`src/backend/src/data/writer/factory.py`: it is empty. -/
def writersDict : List (String × WriterClass) := []

/-- Embeds `DataWriterFactory` from `src/backend/src/data/writer/factory.py`. -/
structure DataWriterFactory where
  cfg : Cfg
  deriving DecidableEq, Repr

/-- Embeds `DataWriterFactory.write`, line 12 of the source:
`writers_dict[source.lower()](cfg = self.cfg).write(df, path, **kwargs)` over the
empty dictionary.  Every lookup misses, raising `KeyError(source.lower())` with
no handler instantiated and no file touched. -/
def DataWriterFactory.write (_f : DataWriterFactory) (_w : World) (source : String)
    (_df : Table) (_path : String) (_kwargs : Options) :
    Except PyError Unit × List Event :=
  match (writersDict.find? (fun p => p.1 = pyLower source)) with
  | some p => (nomatch p.2 : Except PyError Unit × List Event)
  | none => (.error (.keyError (pyLower source)), [])

example : pyLower "CsV" = "csv" := by decide
example : pyLower "EXCEL" = "excel" := by decide

/-- One row of a schema sheet, indexed by the `Variable` column and carrying the
fields of `src/config/name_space.py` lines 24 to 26: the display name `Name` and
the boolean flags `IS Derived?` and `Is Read?`. -/
structure Row where
  var : String
  name : String
  isDerived : Bool
  isRead : Bool
  deriving DecidableEq, Repr

/-- A schema sheet as returned by `pd.read_excel(..., index_col='Variable')`:
an ordered sequence of indexed rows.  Malformed spreadsheets (missing columns)
are folded into the world's error outcome for the spreadsheet read. -/
structure Frame where
  rows : List Row
  deriving DecidableEq, Repr

/-- Python values flowing through `src/config/name_space.py`: YAML scalars and
collections, dictionaries, `SimpleNamespace` objects (constructor `ns`) and
pandas DataFrames (constructor `frame`, a non-dict leaf). -/
inductive PyObj where
  | str (s : String)
  | int (n : Int)
  | bool (b : Bool)
  | none
  | list (xs : List PyObj)
  | dict (kvs : List (String × PyObj))
  | ns (kvs : List (String × PyObj))
  | frame (fr : Frame)

/-- Python dict assignment `d[k] = v`: an existing key keeps its position and
gets the new value, a fresh key is appended (insertion order is preserved). -/
def dictInsert (kvs : List (String × PyObj)) (k : String) (v : PyObj) :
    List (String × PyObj) :=
  if kvs.any (fun p => p.1 = k) then
    kvs.map (fun p => if p.1 = k then (k, v) else p)
  else
    kvs ++ [(k, v)]

/-- Python subscript `d[k]`: `KeyError` on a missing key, `TypeError` when the
subscripted value is not a dictionary. -/
def pyGetItem : PyObj → String → Except PyError PyObj
  | .dict kvs, k =>
    match kvs.find? (fun p => p.1 = k) with
    | some p => .ok p.2
    | Option.none => .error (.keyError k)
  | _, k => .error (.typeError k)

/-- Attribute access on a `SimpleNamespace` result, used to state theorems about
the produced configuration object (`cfg.Path.ENV` and the like). -/
def pyGetAttr : PyObj → String → Option PyObj
  | .ns kvs, k => (kvs.find? (fun p => p.1 = k)).map Prod.snd
  | _, _ => Option.none

mutual

/-- Embeds `ConfigFactory.dict_to_namespace` (`src/config/name_space.py` lines
11 to 15): a dict becomes `SimpleNamespace(**{k: dict_to_namespace(v)})`, any
other value is returned unchanged.  `convKVs` is the dictionary comprehension
over the items. -/
def dict_to_namespace : PyObj → PyObj
  | .dict kvs => .ns (convKVs kvs)
  | v => v

def convKVs : List (String × PyObj) → List (String × PyObj)
  | [] => []
  | (k, v) :: rest => (k, dict_to_namespace v) :: convKVs rest

end

/-- Python `str.split()` with no argument: split on whitespace, dropping empty
pieces.  `wordsAux` walks the characters accumulating the current word. -/
def wordsAux : List Char → List Char → List String
  | [], acc => if acc.isEmpty then [] else [String.mk acc.reverse]
  | c :: rest, acc =>
    if c.isWhitespace then
      if acc.isEmpty then wordsAux rest [] else String.mk acc.reverse :: wordsAux rest []
    else
      wordsAux rest (c :: acc)

/-- Python `s.split()` on a string. -/
def pySplit (s : String) : List String :=
  wordsAux s.toList []

/-- Python `'_'.join(ws)`. -/
def joinUnderscore : List String → String
  | [] => ""
  | [w] => w
  | w :: rest => w ++ "_" ++ joinUnderscore rest

/-- Python `str.upper` on ASCII. -/
def pyUpper (s : String) : String :=
  String.mk (s.toList.map Char.toUpper)

/-- Python `str.capitalize`: first character upper-cased, the rest lower-cased. -/
def pyCapitalize (s : String) : String :=
  match s.toList with
  | [] => ""
  | c :: rest => String.mk (c.toUpper :: rest.map Char.toLower)

/-- The `Schema` key derivation of line 25:
`'_'.join(word.upper() for word in sheet_name.split())`. -/
def upperSnake (s : String) : String :=
  joinUnderscore ((pySplit s).map pyUpper)

/-- The `Col` key derivation of line 26:
`'_'.join(word.capitalize() for word in sheet_name.split())`. -/
def capSnake (s : String) : String :=
  joinUnderscore ((pySplit s).map pyCapitalize)

/-- The `Col` value of line 26:
`schema_df.loc[schema_df['IS Derived?'] | schema_df['Is Read?'], 'Name'].to_dict()`,
a dict from row index (`Variable`) to `Name` over the flagged rows. -/
def Frame.colDict (fr : Frame) : List (String × PyObj) :=
  (fr.rows.filter (fun r => r.isDerived || r.isRead)).foldl
    (fun acc r => dictInsert acc r.var (.str r.name)) []

/-- The external world of the configuration loader:

* `yamlFS p` is the joint outcome of `open(p)` plus `safe_load` (an I/O error
  for a missing file, a parse error for malformed YAML, otherwise the parsed value);
* `excelFS p` is the outcome of `pd.read_excel(io=p, sheet_name=None,
  index_col='Variable')`, the ordered sheets of the workbook;
* `envFS v` is the outcome of `dotenv_values(dotenv_path=v)`, the key-value
  pairs of the secrets file. -/
structure CfgWorld where
  yamlFS : String → Except PyError PyObj
  excelFS : String → Except PyError (List (String × Frame))
  envFS : PyObj → Except PyError (List (String × PyObj))

/-- Embeds `ConfigFactory.__init__` (its whole state is the stored YAML path). -/
structure ConfigFactory where
  yaml_path : String
  deriving DecidableEq, Repr

/-- The names bound at module level in `src/config/name_space.py` when
`ConfigFactory.initialize` runs: the five imports of lines 1 to 5 and the class
itself.  `pd` is not among them. -/
def moduleNames : List String :=
  ["SimpleNamespace", "os", "dotenv_values", "safe_load", "Template", "ConfigFactory"]

/-- Lines 21 to 35 of `ConfigFactory.initialize` as they would execute were the
name `pd` bound to pandas (the reference to `pd.read_excel` on line 24 shows
that intent): read the schema workbook, fold every sheet into `schema_dict`
(upper-snake key, full frame) and `col_dict` (capitalized-snake key, flagged
name dict), look up `Path`, `Path` `ENV`, load the secrets, look up `Param`,
in the evaluation order of the `ns_dict` literal, and convert the assembled
dict to namespaces.  In the source as written this code is unreachable, because
`pd` is unbound (see `moduleNames`). -/
def configMerge (w : CfgWorld) (yaml_dict : PyObj) : Except PyError PyObj := do
  let sheets ← w.excelFS "data/config/schema.xlsx"
  let sc := sheets.foldl
    (fun acc sh =>
      (dictInsert acc.1 (upperSnake sh.1) (.frame sh.2),
       dictInsert acc.2 (capSnake sh.1) (.dict sh.2.colDict)))
    (([], []) : List (String × PyObj) × List (String × PyObj))
  let pathVal ← pyGetItem yaml_dict "Path"
  let envVal ← pyGetItem pathVal "ENV"
  let secrets ← w.envFS envVal
  let paramVal ← pyGetItem yaml_dict "Param"
  return dict_to_namespace (.dict
    [("Schema", .dict sc.1), ("Col", .dict sc.2), ("Path", pathVal),
     ("Secret", .dict secrets), ("Param", paramVal)])

/-- Embeds `ConfigFactory.initialize` (`src/config/name_space.py` lines 17 to
35) as the source is written: open and parse the YAML file; the next executed
expression, `pd.read_excel(...)` on line 24, resolves the name `pd` against the
module environment, and since the module never binds `pd`, every run that gets
past the YAML step raises `NameError`.  The factory state is threaded through
explicitly; the method never assigns to `self`, so it is returned as received. -/
def ConfigFactory.init (f : ConfigFactory) (w : CfgWorld) :
    Except PyError PyObj × ConfigFactory :=
  match w.yamlFS f.yaml_path with
  | .error e => (.error e, f)
  | .ok yaml_dict =>
    if "pd" ∈ moduleNames then
      (configMerge w yaml_dict, f)
    else
      (.error (.nameError "pd"), f)

example : upperSnake "Account Name" = "ACCOUNT_NAME" := by decide
example : capSnake "Account Name" = "Account_Name" := by decide
example : capSnake "ACCOUNT name" = "Account_Name" := by decide

mutual

/-- Whether a value still contains a Python `dict` anywhere inside it, looking
under namespaces and lists alike.  Used to state that a conversion result still
holds an unconverted key-value map. -/
def containsDict : PyObj → Bool
  | .dict _ => true
  | .ns kvs => containsDictKVs kvs
  | .list xs => containsDictList xs
  | _ => false

def containsDictKVs : List (String × PyObj) → Bool
  | [] => false
  | (_, v) :: rest => containsDict v || containsDictKVs rest

def containsDictList : List PyObj → Bool
  | [] => false
  | v :: rest => containsDict v || containsDictList rest

end

mutual

/-- Whether no Python `dict` is reachable from a value by descending through
namespace attributes only (values inside non-map containers such as lists are
opaque leaves for this purpose). -/
def spineDictFree : PyObj → Bool
  | .dict _ => false
  | .ns kvs => spineKVs kvs
  | _ => true

def spineKVs : List (String × PyObj) → Bool
  | [] => true
  | (_, v) :: rest => spineDictFree v && spineKVs rest

end

mutual

/-- Whether a value contains no `SimpleNamespace` anywhere.  Inputs to
`dict_to_namespace` in the program are parse results (YAML values, dotenv
dicts, DataFrames), which never contain namespaces. -/
def nsFree : PyObj → Bool
  | .ns _ => false
  | .dict kvs => nsFreeKVs kvs
  | .list xs => nsFreeList xs
  | _ => true

def nsFreeKVs : List (String × PyObj) → Bool
  | [] => true
  | (_, v) :: rest => nsFree v && nsFreeKVs rest

def nsFreeList : List PyObj → Bool
  | [] => true
  | v :: rest => nsFree v && nsFreeList rest

end

/-- Attribute access through an `Except`-wrapped namespace, for stating
properties of a loader result (`cfg.Param` and the like). -/
def exceptAttr1 (r : Except PyError PyObj) (a : String) : Option PyObj :=
  match r with
  | .ok v => pyGetAttr v a
  | .error _ => Option.none

/-- Two-step attribute access (`cfg.Path.ENV` and the like). -/
def exceptAttr2 (r : Except PyError PyObj) (a b : String) : Option PyObj :=
  match exceptAttr1 r a with
  | some x => pyGetAttr x b
  | Option.none => Option.none

/-- A concrete well-formed table, standing for the parsed contents of a
readable CSV or Excel file. -/
def t0 : Table := ⟨[["a", "b"], ["1", "2"]]⟩

/-- A concrete reader world: a readable, well-formed CSV file at `data.csv` and
Excel workbook at `book.xlsx`; everything else raises an I/O error. -/
def w0 : World where
  csv := fun p k => if p = "data.csv" ∧ k = [] then .ok t0 else .error (.ioError p)
  excel := fun p k => if p = "book.xlsx" ∧ k = [] then .ok t0 else .error (.ioError p)

/-- A concrete reader factory holding an opaque shared configuration object. -/
def f0 : DataReaderFactory := ⟨"shared-cfg"⟩

/-- A concrete writer factory. -/
def fw0 : DataWriterFactory := ⟨"shared-cfg"⟩

/-- The schema sheet named `Account Name`: three rows indexed by `Variable`,
exactly one of which has `IS Derived?` or `Is Read?` set. -/
def frameAcc : Frame :=
  ⟨[⟨"acc_id", "Account Id", false, false⟩,
    ⟨"acc_name", "Account Display Name", true, false⟩,
    ⟨"acc_z", "Zed", false, false⟩]⟩

/-- The parsed YAML document: `Path.ENV = "secrets.env"` and a `Param` block. -/
def yaml6 : PyObj :=
  .dict [("Path", .dict [("ENV", .str "secrets.env")]),
         ("Param", .dict [("alpha", .int 1)])]

/-- A concrete configuration world: a well-formed YAML file at `config.yaml`, a
schema workbook with the single sheet `Account Name`, and a secrets file at
`secrets.env` holding one key-value pair. -/
def w6 : CfgWorld where
  yamlFS := fun p => if p = "config.yaml" then .ok yaml6 else .error (.ioError p)
  excelFS := fun p =>
    if p = "data/config/schema.xlsx" then .ok [("Account Name", frameAcc)]
    else .error (.ioError p)
  envFS := fun v =>
    match v with
    | .str "secrets.env" => .ok [("API_KEY", .str "k")]
    | _ => .error (.ioError "env")

/-- The configuration factory pointed at the concrete YAML file. -/
def f6 : ConfigFactory := ⟨"config.yaml"⟩

/-- A configuration world in which every external read fails (missing files). -/
def wMiss : CfgWorld where
  yamlFS := fun _ => .error (.ioError "missing")
  excelFS := fun _ => .error (.ioError "missing")
  envFS := fun _ => .error (.ioError "missing")

/-- The configuration factory pointed at a missing YAML file. -/
def fM : ConfigFactory := ⟨"absent.yaml"⟩

/-- Helper shared by several results: `ConfigFactory.initialize` never assigns
to `self`, so the threaded factory state comes back unchanged on every path. -/
theorem init_state_eq (f : ConfigFactory) (w : CfgWorld) :
    (ConfigFactory.init f w).2 = f := by
  unfold ConfigFactory.init
  cases w.yamlFS f.yaml_path with
  | error e => rfl
  | ok y => split <;> rfl

/-- C1: with the supported format name `csv` and a readable, well-formed file at
`data.csv` (the world yields the table `t0` there), `DataReaderFactory.read`
returns Python `None`, not the loaded table: the handler binds `df` but has no
return statement.  The spec itself flags the missing return as a defect, so the
claim describes the intent and the code is the slip. -/
theorem c1_reader_returns_none :
    (DataReaderFactory.read f0 w0 "csv" "data.csv" []).1 = .ok Option.none
    ∧ w0.csv "data.csv" [] = .ok t0
    ∧ (Except.ok (some t0) : Except PyError (Option Table)) ≠ .ok Option.none := by
  refine ⟨rfl, rfl, fun h => ?_⟩
  cases h

/-- C2: for every factory, world, path and options, a format name whose
lowercase form is `csv` resolves to `CSVReader` and one whose lowercase form is
`excel` resolves to `ExcelReader`; the matched class is instantiated with the
factory's shared configuration (the logged instantiation event carries `f.cfg`)
and its `read` is invoked with exactly the given path and pass-through options. -/
theorem c2_dispatch (f : DataReaderFactory) (w : World) (source path : String)
    (kwargs : Options) :
    (pyLower source = "csv" →
      f.read w source path kwargs =
        (((CSVReader.mk f.cfg).read w path kwargs).1,
          Event.instCSV f.cfg :: ((CSVReader.mk f.cfg).read w path kwargs).2))
    ∧ (pyLower source = "excel" →
      f.read w source path kwargs =
        (((ExcelReader.mk f.cfg).read w path kwargs).1,
          Event.instExcel f.cfg :: ((ExcelReader.mk f.cfg).read w path kwargs).2)) := by
  constructor <;> intro h <;>
    simp [DataReaderFactory.read, readerDict, List.find?, h]

/-- C2 witness: the dispatch equation at the concrete inputs `Csv` (mixed case)
and `EXCEL` (upper case). -/
theorem c2_dispatch_witness :
    DataReaderFactory.read f0 w0 "Csv" "data.csv" [] =
      (((CSVReader.mk f0.cfg).read w0 "data.csv" []).1,
        Event.instCSV f0.cfg :: ((CSVReader.mk f0.cfg).read w0 "data.csv" []).2)
    ∧ DataReaderFactory.read f0 w0 "EXCEL" "book.xlsx" [] =
      (((ExcelReader.mk f0.cfg).read w0 "book.xlsx" []).1,
        Event.instExcel f0.cfg :: ((ExcelReader.mk f0.cfg).read w0 "book.xlsx" []).2) :=
  ⟨(c2_dispatch f0 w0 "Csv" "data.csv" []).1 (by decide),
   (c2_dispatch f0 w0 "EXCEL" "book.xlsx" []).2 (by decide)⟩

/-- C3: for any format name whose lowercase form is neither `csv` nor `excel`,
`DataReaderFactory.read` raises `KeyError(source.lower())` with an empty event
trace: no handler is instantiated and no file is opened. -/
theorem c3_unknown_format (f : DataReaderFactory) (w : World) (source path : String)
    (kwargs : Options) (h1 : pyLower source ≠ "csv") (h2 : pyLower source ≠ "excel") :
    f.read w source path kwargs =
      (.error (.keyError (pyLower source)), ([] : List Event)) := by
  have k1 : ¬ (("csv" : String) = pyLower source) := fun hh => h1 hh.symm
  have k2 : ¬ (("excel" : String) = pyLower source) := fun hh => h2 hh.symm
  simp [DataReaderFactory.read, readerDict, List.find?, k1, k2]

/-- C3 witness: the unsupported format name `json`. -/
theorem c3_unknown_format_witness :
    pyLower "json" ≠ "csv" ∧ pyLower "json" ≠ "excel"
    ∧ DataReaderFactory.read f0 w0 "json" "data.csv" [] =
        (.error (.keyError (pyLower "json")), ([] : List Event)) :=
  ⟨by decide, by decide,
   c3_unknown_format f0 w0 "json" "data.csv" [] (by decide) (by decide)⟩

/-- C4: for every factory, world, format name, table, path and options,
`DataWriterFactory.write` raises `KeyError(source.lower())` over its empty
dispatch dictionary, with an empty event trace: no write is performed and the
filesystem is never touched. -/
theorem c4_writer_always_keyerror (f : DataWriterFactory) (w : World)
    (source : String) (df : Table) (path : String) (kwargs : Options) :
    f.write w source df path kwargs =
      (.error (.keyError (pyLower source)), ([] : List Event)) := rfl

/-- C5: every run of `ConfigFactory.initialize` that gets past parsing the YAML
file raises `NameError` for `pd`, because the module never binds that name; in
particular no such run returns a namespace object. -/
theorem c5_missing_pandas (f : ConfigFactory) (w : CfgWorld) (d : PyObj)
    (h : w.yamlFS f.yaml_path = .ok d) :
    (ConfigFactory.init f w).1 = .error (.nameError "pd")
    ∧ ∀ v, (ConfigFactory.init f w).1 ≠ .ok v := by
  have he : (ConfigFactory.init f w).1 = .error (.nameError "pd") := by
    unfold ConfigFactory.init
    rw [h]
    simp [moduleNames]
  exact ⟨he, fun v hv => by rw [he] at hv; cases hv⟩

/-- C5 witness: the concrete world `w6`, whose YAML file parses successfully. -/
theorem c5_missing_pandas_witness :
    w6.yamlFS f6.yaml_path = .ok yaml6
    ∧ (ConfigFactory.init f6 w6).1 = .error (.nameError "pd") :=
  ⟨rfl, (c5_missing_pandas f6 w6 yaml6 rfl).1⟩

/-- C6: the claim is the intent, the code the slip.  First conjunct: as written,
`ConfigFactory.initialize` on the concrete world `w6` (valid YAML, schema
workbook with the single sheet `Account Name` in which exactly one row is
flagged) raises `NameError` for `pd` before processing any sheet, so it never
stores anything.  Remaining conjuncts: the per-sheet pipeline of lines 24 to 26
and 28 to 35 as it would run with pandas imported (`configMerge`) does satisfy
the claim: `cfg.Col.Account_Name` holds exactly the one flagged row's `Name`
keyed by its row identifier, and `cfg.Schema.ACCOUNT_NAME` the full unfiltered
sheet. -/
theorem c6_schema_col_intent :
    (ConfigFactory.init f6 w6).1 = .error (.nameError "pd")
    ∧ exceptAttr2 (configMerge w6 yaml6) "Col" "Account_Name" =
        some (.ns [("acc_name", .str "Account Display Name")])
    ∧ exceptAttr2 (configMerge w6 yaml6) "Schema" "ACCOUNT_NAME" =
        some (.frame frameAcc) :=
  ⟨rfl, rfl, rfl⟩

/-- C7: the claim is the intent, the code the slip.  First conjunct: on the
concrete world `w6`, whose YAML defines `Path.ENV = "secrets.env"` and a
`Param` block, `ConfigFactory.initialize` as written raises `NameError` for
`pd`, so no successful call exists.  Remaining conjuncts: the assembly of lines
28 to 35 as it would run with pandas imported (`configMerge`) does satisfy the
claim: `cfg.Path.ENV` equals `secrets.env`, `cfg.Param` matches the YAML
`Param` block exactly, and `cfg.Secret` holds the key-value pairs loaded from
the secrets file at `Path.ENV`. -/
theorem c7_yaml_env_param_intent :
    (ConfigFactory.init f6 w6).1 = .error (.nameError "pd")
    ∧ exceptAttr2 (configMerge w6 yaml6) "Path" "ENV" = some (.str "secrets.env")
    ∧ exceptAttr1 (configMerge w6 yaml6) "Param" = some (.ns [("alpha", .int 1)])
    ∧ exceptAttr1 (configMerge w6 yaml6) "Secret" = some (.ns [("API_KEY", .str "k")]) :=
  ⟨rfl, rfl, rfl, rfl⟩

/-- C8: `ConfigFactory.initialize` retains no state: it leaves the factory
unchanged, and a second call on the factory returned by the first, with the
same unchanged input files, recomputes from scratch and produces a structurally
equal outcome. -/
theorem c8_idempotent (f : ConfigFactory) (w : CfgWorld) :
    (ConfigFactory.init f w).2 = f
    ∧ ConfigFactory.init (ConfigFactory.init f w).2 w = ConfigFactory.init f w :=
  ⟨init_state_eq f w, by rw [init_state_eq f w]⟩

/-- C10: every failing run of `ConfigFactory.initialize` returns the error and
nothing else: no namespace object is produced, and the factory's state (its
stored YAML path) is exactly as it was before the call. -/
theorem c10_failing_run_state (f : ConfigFactory) (w : CfgWorld) (e : PyError)
    (h : (ConfigFactory.init f w).1 = .error e) :
    (ConfigFactory.init f w).2 = f
    ∧ ∀ v, (ConfigFactory.init f w).1 ≠ .ok v :=
  ⟨init_state_eq f w, fun v hv => by rw [h] at hv; cases hv⟩

/-- C10 witness: the concrete world with a missing YAML file. -/
theorem c10_failing_run_state_witness :
    (ConfigFactory.init fM wMiss).1 = .error (.ioError "missing")
    ∧ (ConfigFactory.init fM wMiss).2 = fM :=
  ⟨rfl, (c10_failing_run_state fM wMiss (.ioError "missing") rfl).1⟩

mutual

/-- Helper for C9: on namespace-free input, conversion leaves no dictionary
reachable through namespace attributes — every map met along map values has
become a `SimpleNamespace`. -/
theorem spine_d2n (v : PyObj) (h : nsFree v = true) :
    spineDictFree (dict_to_namespace v) = true := by
  cases v with
  | dict kvs =>
    simp only [nsFree] at h
    simpa [dict_to_namespace, spineDictFree] using spine_convKVs kvs h
  | ns kvs => simp [nsFree] at h
  | str s => rfl
  | int n => rfl
  | bool b => rfl
  | none => rfl
  | list xs => rfl
  | frame fr => rfl

/-- Helper for C9, the list form over dictionary items. -/
theorem spine_convKVs (kvs : List (String × PyObj)) (h : nsFreeKVs kvs = true) :
    spineKVs (convKVs kvs) = true := by
  cases kvs with
  | nil => rfl
  | cons p rest =>
    obtain ⟨k, v⟩ := p
    simp only [nsFreeKVs, Bool.and_eq_true] at h
    simp only [convKVs, spineKVs, Bool.and_eq_true]
    exact ⟨spine_d2n v h.1, spine_convKVs rest h.2⟩

end

/-- C9 counterexample: the claim fails on a map nested inside a list.  On the
input `{"a": [{}]}` the list is a non-map leaf, so it passes through unchanged
and the map inside it is NOT converted to an attribute-accessible object: the
output still contains a Python dict. -/
theorem c9_counterexample :
    dict_to_namespace (.dict [("a", .list [.dict []])]) =
      .ns [("a", .list [.dict []])]
    ∧ containsDict (dict_to_namespace (.dict [("a", .list [.dict []])])) = true :=
  ⟨rfl, rfl⟩

/-- C9 amended: on namespace-free input (every input the program feeds it is
one), `dict_to_namespace` converts every key-value map reachable from the root
through chains of map values into an attribute-accessible object, and every
non-map value passes through unchanged, together with anything nested inside
it — in particular maps inside lists are not converted. -/
theorem c9_amended :
    (∀ v, nsFree v = true → spineDictFree (dict_to_namespace v) = true)
    ∧ (∀ s, dict_to_namespace (.str s) = .str s)
    ∧ (∀ n, dict_to_namespace (.int n) = .int n)
    ∧ (∀ b, dict_to_namespace (.bool b) = .bool b)
    ∧ dict_to_namespace .none = .none
    ∧ (∀ xs, dict_to_namespace (.list xs) = .list xs)
    ∧ (∀ fr, dict_to_namespace (.frame fr) = .frame fr) :=
  ⟨spine_d2n, fun _ => rfl, fun _ => rfl, fun _ => rfl, rfl, fun _ => rfl, fun _ => rfl⟩

/-- C9 amended witness: a concrete two-level map, fully converted. -/
theorem c9_amended_witness :
    nsFree (.dict [("a", .dict [("b", .str "x")])]) = true
    ∧ spineDictFree (dict_to_namespace (.dict [("a", .dict [("b", .str "x")])])) = true :=
  ⟨rfl, c9_amended.1 (.dict [("a", .dict [("b", .str "x")])]) rfl⟩
